import Mathlib

/-!
Verification model of the clinic management backend
(doctor registration / login / profile / appointment routes in
`src/routes/doctor.js`, and the admin login route in the main server file).

The document database is modelled as a list of records; each HTTP handler
becomes a pure function from the request data and the current database
(and, where relevant, the session) to a result structure holding the HTTP
response fields and the database after the handler ran.  External
collaborators (bcrypt, the unique-code generator, date formatting, the
email service) are passed in as parameters, mirroring their role as
opaque collaborators of the routes.
-/

/-! ## Data model -/

/-- A doctor record as persisted by the doctor collection. -/
structure Doctor where
  name : String
  email : String
  passwordHash : String
  phone : String
  gender : String
  specialization : String
  location : String
  hospitalName : String
  doctorid : String
  status : String
  profilePicture : Option String := none
deriving Repr, DecidableEq

/-- The doctor record as returned to clients after
`select("-passwordHash")`: the password hash field is structurally
absent. -/
structure DoctorView where
  name : String
  email : String
  phone : String
  gender : String
  specialization : String
  location : String
  hospitalName : String
  doctorid : String
  status : String
  profilePicture : Option String
deriving Repr, DecidableEq

/-- Projection performed by `select("-passwordHash")`. -/
def Doctor.view (d : Doctor) : DoctorView :=
  { name := d.name, email := d.email, phone := d.phone, gender := d.gender,
    specialization := d.specialization, location := d.location,
    hospitalName := d.hospitalName, doctorid := d.doctorid,
    status := d.status, profilePicture := d.profilePicture }

/-- An appointment record.  `id` is the database `_id`; `createdAt` is the
creation timestamp used by the `sort(createdAt: -1)` queries. -/
structure Appointment where
  id : String
  doctorid : String
  patientEmail : String
  status : String
  timeSlot : String
  appointmentDate : String
  confirmationMessage : String
  createdAt : Nat
deriving Repr, DecidableEq

/-- Server-side session contents relevant to the doctor routes. -/
structure Session where
  doctorId : Option String := none
  doctorEmail : Option String := none
deriving Repr, DecidableEq

/-- JavaScript truthiness of an optional string (`undefined`, `null` and
`""` are falsy). -/
def truthyStr : Option String → Bool
  | none => false
  | some s => s ≠ ""

/-- JavaScript `a || b` on an optional string `a` with default `b`:
the default is used when the field is absent or the empty string. -/
def jsOrElse (o : Option String) (dflt : String) : String :=
  match o with
  | none => dflt
  | some s => if s = "" then dflt else s

/-- JavaScript `String.prototype.toLowerCase` on the stored strings:
each character lowercased. -/
def jsToLowerCase (s : String) : String := String.mk (s.data.map Char.toLower)

/-! ## Authorization middleware (`isDoctorLoggedIn`, doctor.js lines 25-30) -/

/-- Outcome of the `isDoctorLoggedIn` middleware: either the request
proceeds to the handler carrying the session doctor identifier, or the
response is a redirect. -/
inductive GateResult
  | proceed (doctorId : String)
  | redirect (path : String)
deriving Repr, DecidableEq

/-- `isDoctorLoggedIn`: `if (req.session && req.session.doctorId) next()
else res.redirect("/doctorLogin")`.  The session may be absent entirely
(`none`) or present without a truthy doctor identifier. -/
def isDoctorLoggedIn : Option Session → GateResult
  | none => .redirect "/doctorLogin"
  | some s =>
      match s.doctorId with
      | none => .redirect "/doctorLogin"
      | some d => if d = "" then .redirect "/doctorLogin" else .proceed d

/-! ## Doctor registration (`POST /doctor/register`, doctor.js lines 33-79) -/

/-- Request body of `POST /doctor/register`. -/
structure RegisterBody where
  name : String
  email : String
  password : String
  phone : String
  gender : String
  specialization : String
  location : String
  hospitalName : Option String
deriving Repr, DecidableEq

/-- Response and resulting database of `POST /doctor/register`. -/
structure RegisterResult where
  status : Nat
  success : Bool
  message : String
  doctorId : Option String
  db : List Doctor
deriving Repr, DecidableEq

/-- `POST /doctor/register`: reject when a doctor with the same email
already exists; otherwise hash the password (`hash`), generate a doctor
identifier (`generatedCode`, the value returned by `generateCode()`),
and persist the doctor with status `"pending"`, specialization and
location lowercased, and `hospitalName || ""`. -/
def doctorRegister (hash : String → String) (generatedCode : String)
    (db : List Doctor) (body : RegisterBody) : RegisterResult :=
  match db.find? (fun d => d.email == body.email) with
  | some _ =>
      { status := 400, success := false,
        message := "Doctor with this email already exists",
        doctorId := none, db := db }
  | none =>
      let passwordHash := hash body.password
      let doctorid := generatedCode
      let newDoctor : Doctor :=
        { name := body.name, email := body.email,
          passwordHash := passwordHash, phone := body.phone,
          gender := body.gender,
          specialization := jsToLowerCase body.specialization,
          location := jsToLowerCase body.location,
          hospitalName := jsOrElse body.hospitalName "",
          doctorid := doctorid, status := "pending" }
      { status := 201, success := true,
        message := "Doctor registered successfully! Please wait for admin approval.",
        doctorId := some doctorid, db := db ++ [newDoctor] }

/-! ## Doctor login (`POST /doctor/login`, doctor.js lines 82-129) -/

/-- Response and resulting session of `POST /doctor/login`. -/
structure LoginResult where
  status : Nat
  success : Bool
  message : String
  doctorId : Option String
  redirectUrl : Option String
  session : Session
deriving Repr, DecidableEq

/-- `POST /doctor/login`: look up the doctor by email (401 when absent),
check `status == "approved"` (403 otherwise) before comparing the
password against the stored hash with `bcrypt.compare` (modelled by the
`compare` parameter; 401 on mismatch); on success store the doctor
identifier and email into the session. -/
def doctorLogin (compare : String → String → Bool)
    (db : List Doctor) (sess : Session) (email password : String) : LoginResult :=
  match db.find? (fun d => d.email == email) with
  | none =>
      { status := 401, success := false, message := "Invalid email or password",
        doctorId := none, redirectUrl := none, session := sess }
  | some foundDoctor =>
      if foundDoctor.status ≠ "approved" then
        { status := 403, success := false,
          message := "Your account is pending approval. Please wait for admin approval.",
          doctorId := none, redirectUrl := none, session := sess }
      else if compare password foundDoctor.passwordHash = false then
        { status := 401, success := false, message := "Invalid email or password",
          doctorId := none, redirectUrl := none, session := sess }
      else
        { status := 200, success := true, message := "Login successful",
          doctorId := some foundDoctor.doctorid,
          redirectUrl := some "/doctor/dashboard",
          session :=
            { sess with
              doctorId := some foundDoctor.doctorid,
              doctorEmail := some foundDoctor.email } }

/-! ## Doctor profile update (`POST /doctor/profile/update`, doctor.js lines 175-198) -/

/-- Request body of `POST /doctor/profile/update`. -/
structure UpdateBody where
  name : String
  phone : String
  specialization : String
  location : String
  hospitalName : String
deriving Repr, DecidableEq

/-- Response and resulting database of `POST /doctor/profile/update`. -/
structure UpdateResult where
  success : Bool
  message : String
  doctor : Option DoctorView
  db : List Doctor
deriving Repr, DecidableEq

/-- The update document passed to `findOneAndUpdate`: exactly the five
fields name, phone, specialization, location, hospitalName are set, to
the submitted values verbatim. -/
def applyProfileUpdate (body : UpdateBody) (d : Doctor) : Doctor :=
  { d with
    name := body.name,
    phone := body.phone,
    specialization := body.specialization,
    location := body.location,
    hospitalName := body.hospitalName }

/-- `findOneAndUpdate` updates the first document matching the doctorid
filter, leaving every other document untouched. -/
def updateFirstDoctor : List Doctor → String → Doctor → List Doctor
  | [], _, _ => []
  | d :: rest, key, upd =>
      if d.doctorid == key then upd :: rest
      else d :: updateFirstDoctor rest key upd

/-- `POST /doctor/profile/update`: `findOneAndUpdate(doctorid filter,
five-field update, new:true).select("-passwordHash")`; the response
always reports success, with the updated record (password hash
excluded), or `null` when no record matched. -/
def doctorProfileUpdate (db : List Doctor) (doctorId : String)
    (body : UpdateBody) : UpdateResult :=
  match db.find? (fun d => d.doctorid == doctorId) with
  | none =>
      { success := true, message := "Profile updated successfully",
        doctor := none, db := db }
  | some d =>
      let updated := applyProfileUpdate body d
      { success := true, message := "Profile updated successfully",
        doctor := some updated.view,
        db := updateFirstDoctor db doctorId updated }

/-! ## Appointment listing (`GET /doctor/appointments`, doctor.js lines 240-252,
and the same query in `GET /doctor/dashboard`, lines 142-150) -/

/-- Comparator realising `sort(createdAt: -1)`: newest first. -/
def byCreatedAtDesc (a b : Appointment) : Bool := b.createdAt ≤ a.createdAt

/-- The query `appointment.find(doctorid: doctorId).sort(createdAt: -1)`
shared by the dashboard and the appointments API. -/
def getDoctorAppointments (db : List Appointment) (doctorId : String) :
    List Appointment :=
  (db.filter (fun a => a.doctorid == doctorId)).mergeSort byCreatedAtDesc

/-- Outcome of a JSON API route guarded by `isDoctorLoggedIn`: either the
middleware redirected, or the handler produced a JSON response. -/
inductive AppointmentsOutcome
  | redirect (path : String)
  | json (status : Nat) (success : Bool) (appointments : List Appointment)
deriving Repr, DecidableEq

/-- `GET /doctor/appointments` including its `isDoctorLoggedIn` guard. -/
def getAppointmentsRoute (sess : Option Session) (db : List Appointment) :
    AppointmentsOutcome :=
  match isDoctorLoggedIn sess with
  | .redirect p => .redirect p
  | .proceed doctorId => .json 200 true (getDoctorAppointments db doctorId)

/-! ## Appointment confirmation
(`POST /doctor/appointments/:appointmentId/confirm`, doctor.js lines 275-338) -/

/-- Outcome of the email notification attempt
(`sendAppointmentConfirmationEmail`): resolved with success, resolved
with failure, or threw. -/
inductive EmailOutcome
  | sent
  | failed (err : String)
  | thrown (err : String)
deriving Repr, DecidableEq

/-- Response and resulting database of the confirm handler.  `log`
records the console output of the email branch (the only observable
effect of the notification outcome). -/
structure ConfirmResult where
  status : Nat
  success : Bool
  message : String
  appointment : Option Appointment
  emailSent : Option Bool
  db : List Appointment
  log : List String
deriving Repr, DecidableEq

/-- The derived default confirmation message
`Your appointment has been confirmed for (timeSlot) on (formatted date)`;
`formatDate` models `new Date(appointmentDate).toLocaleDateString()`. -/
def defaultConfirmationMessage (formatDate : String → String)
    (timeSlot appointmentDate : String) : String :=
  "Your appointment has been confirmed for " ++ timeSlot ++ " on "
    ++ formatDate appointmentDate

/-- `foundAppointment.save()`: persist the document, replacing the first
stored document with the same `_id`. -/
def saveAppointmentById : List Appointment → Appointment → List Appointment
  | [], _ => []
  | a :: rest, upd =>
      if a.id == upd.id then upd :: rest
      else a :: saveAppointmentById rest upd

/-- The confirm handler body: find the appointment by `_id` and the
session doctor identifier together (404 when no match); otherwise set
status to `"confirmed"`, overwrite time slot, date and confirmation
message (`confirmationMessage || default`), save, then attempt the email
notification inside a try/catch whose only effect is logging, and
respond with success and `emailSent: true` regardless. -/
def confirmAppointment (formatDate : String → String)
    (db : List Appointment) (doctorId appointmentId : String)
    (timeSlot appointmentDate : String) (confirmationMessage : Option String)
    (email : EmailOutcome) : ConfirmResult :=
  match db.find? (fun a => a.id == appointmentId && a.doctorid == doctorId) with
  | none =>
      { status := 404, success := false, message := "Appointment not found",
        appointment := none, emailSent := none, db := db, log := [] }
  | some foundAppointment =>
      let updated : Appointment :=
        { foundAppointment with
          status := "confirmed",
          timeSlot := timeSlot,
          appointmentDate := appointmentDate,
          confirmationMessage :=
            jsOrElse confirmationMessage
              (defaultConfirmationMessage formatDate timeSlot appointmentDate) }
      let savedDb := saveAppointmentById db updated
      let emailLog :=
        match email with
        | .sent =>
            ["Appointment confirmation email sent successfully to: "
              ++ updated.patientEmail]
        | .failed err =>
            ["Failed to send appointment confirmation email: " ++ err]
        | .thrown err =>
            ["Error in email sending process: " ++ err]
      { status := 200, success := true,
        message := "Appointment confirmed successfully. Patient will be notified.",
        appointment := some updated, emailSent := some true,
        db := savedDb, log := emailLog }

/-- Outcome of the confirm route including its `isDoctorLoggedIn` guard. -/
inductive ConfirmOutcome
  | redirect (path : String)
  | api (r : ConfirmResult)
deriving Repr, DecidableEq

/-- `POST /doctor/appointments/:appointmentId/confirm` including its
`isDoctorLoggedIn` guard. -/
def confirmRoute (formatDate : String → String) (sess : Option Session)
    (db : List Appointment) (appointmentId : String)
    (timeSlot appointmentDate : String) (confirmationMessage : Option String)
    (email : EmailOutcome) : ConfirmOutcome :=
  match isDoctorLoggedIn sess with
  | .redirect p => .redirect p
  | .proceed doctorId =>
      .api (confirmAppointment formatDate db doctorId appointmentId
        timeSlot appointmentDate confirmationMessage email)

/-! ## Admin login (`POST /admin`, main server file lines 97-116) -/

/-- `JSON.stringify` of a plain ASCII string without escapes, as applied
to the admin email when setting the cookie. -/
def jsonStringifyStr (s : String) : String := "\"" ++ s ++ "\""

/-- Response of `POST /admin`: either a redirect carrying the `admin`
cookie, or the structured invalid-credential JSON body. -/
structure AdminResult where
  adminCookie : Option String
  redirectTo : Option String
  jsonStatus : Option Nat
  jsonValid : Option String
deriving Repr, DecidableEq

/-- `POST /admin`: exact equality against the hardcoded constants grants
the cookie and the redirect; any other pair yields
`JSON with status 400 and valid "Invalid Email!"` and no cookie. -/
def adminLogin (email password : String) : AdminResult :=
  if email = "admin@gmail.com" ∧ password = "asdf" then
    { adminCookie := some (jsonStringifyStr email),
      redirectTo := some "/adminPage",
      jsonStatus := none, jsonValid := none }
  else
    { adminCookie := none, redirectTo := none,
      jsonStatus := some 400, jsonValid := some "Invalid Email!" }

/-! ## Helper lemmas -/

/-- Saving a document whose `_id` occurs in the store leaves the saved
document present in the resulting store. -/
theorem mem_saveAppointmentById (db : List Appointment) (upd : Appointment)
    (h : ∃ x ∈ db, x.id = upd.id) : upd ∈ saveAppointmentById db upd := by
  induction db with
  | nil => simp at h
  | cons a rest ih =>
    by_cases ha : a.id = upd.id
    · simp [saveAppointmentById, ha]
    · rcases h with ⟨x, hx, hid⟩
      rcases List.mem_cons.mp hx with rfl | hx2
      · exact absurd hid ha
      · simp only [saveAppointmentById]
        rw [if_neg (by simpa using ha)]
        exact List.mem_cons_of_mem _ (ih ⟨x, hx2, hid⟩)

/-- Every record in the store after `findOneAndUpdate` is either an
untouched record of the old store or the updated document. -/
theorem mem_updateFirstDoctor (l : List Doctor) (key : String) (upd : Doctor) :
    ∀ x ∈ updateFirstDoctor l key upd, x ∈ l ∨ x = upd := by
  induction l with
  | nil => simp [updateFirstDoctor]
  | cons a rest ih =>
    intro x hx
    unfold updateFirstDoctor at hx
    by_cases ha : a.doctorid = key
    · rw [if_pos (by simpa using ha)] at hx
      rcases List.mem_cons.mp hx with rfl | hx2
      · right; rfl
      · left; exact List.mem_cons_of_mem _ hx2
    · rw [if_neg (by simpa using ha)] at hx
      rcases List.mem_cons.mp hx with rfl | hx2
      · left; exact List.mem_cons_self _ _
      · rcases ih x hx2 with h1 | h2
        · left; exact List.mem_cons_of_mem _ h1
        · right; exact h2

/-! ## Claim theorems -/

/-- C7: for the admin login operation, exactly the one input pair
matching the stored constants grants the admin cookie and the redirect;
every other pair yields the structured body with status 400 and
valid "Invalid Email!" and sets no admin cookie. -/
theorem adminLogin_exact_match_only :
    (∀ email password : String,
      ((adminLogin email password).adminCookie.isSome = true ∧
       (adminLogin email password).redirectTo = some "/adminPage") ↔
      (email = "admin@gmail.com" ∧ password = "asdf")) ∧
    (∀ email password : String,
      ¬(email = "admin@gmail.com" ∧ password = "asdf") →
      adminLogin email password =
        { adminCookie := none, redirectTo := none,
          jsonStatus := some 400, jsonValid := some "Invalid Email!" }) := by
  constructor
  · intro email password
    constructor
    · intro h
      by_contra hc
      rw [adminLogin, if_neg hc] at h
      simp at h
    · intro h
      rw [adminLogin, if_pos h]
      exact ⟨rfl, rfl⟩
  · intro email password h
    rw [adminLogin, if_neg h]

/-- C7 witness: the stored pair grants the cookie and redirect, and a
concrete wrong pair gets the invalid-credential body. -/
theorem adminLogin_exact_match_only_witness :
    (((adminLogin "admin@gmail.com" "asdf").adminCookie.isSome = true ∧
      (adminLogin "admin@gmail.com" "asdf").redirectTo = some "/adminPage") ↔
     ("admin@gmail.com" = "admin@gmail.com" ∧ "asdf" = "asdf")) ∧
    adminLogin "admin@gmail.com" "wrong" =
      { adminCookie := none, redirectTo := none,
        jsonStatus := some 400, jsonValid := some "Invalid Email!" } :=
  ⟨adminLogin_exact_match_only.1 "admin@gmail.com" "asdf",
   adminLogin_exact_match_only.2 "admin@gmail.com" "wrong" (by decide)⟩

/-- C3: when the stored doctor found by email has status different from
"approved", login answers 403 with no success, the session is unchanged
(so no doctor identifier is stored in it), and the outcome is identical
under every password-comparison function, showing the approval check
precedes the password comparison; moreover the session changes at all
only on the success path. -/
theorem doctorLogin_unapproved_never_session :
    (∀ (compare : String → String → Bool) (db : List Doctor) (sess : Session)
        (email password : String) (d : Doctor),
      db.find? (fun x => x.email == email) = some d →
      d.status ≠ "approved" →
      (doctorLogin compare db sess email password).status = 403 ∧
      (doctorLogin compare db sess email password).success = false ∧
      (doctorLogin compare db sess email password).session = sess ∧
      (∀ compare2 : String → String → Bool,
        doctorLogin compare2 db sess email password =
          doctorLogin compare db sess email password)) ∧
    (∀ (compare : String → String → Bool) (db : List Doctor) (sess : Session)
        (email password : String),
      (doctorLogin compare db sess email password).session ≠ sess →
      (doctorLogin compare db sess email password).success = true ∧
      (doctorLogin compare db sess email password).status = 200) := by
  constructor
  · intro compare db sess email password d hfind hstatus
    unfold doctorLogin
    rw [hfind]
    refine ⟨by simp [hstatus], by simp [hstatus], by simp [hstatus], ?_⟩
    intro compare2
    simp [hstatus]
  · intro compare db sess email password h
    unfold doctorLogin at h ⊢
    rcases hf : db.find? (fun x => x.email == email) with _ | d
    · rw [hf] at h
      simp at h
    · rw [hf] at h ⊢
      by_cases h1 : d.status ≠ "approved"
      · simp [h1] at h
      · by_cases h2 : compare password d.passwordHash = false
        · simp [h1, h2] at h
        · simp [h1, h2]

/-- A concrete doctor record awaiting approval, for witnesses. -/
def pendingDoctor : Doctor :=
  { name := "Alice", email := "a@x.com", passwordHash := "ph", phone := "1",
    gender := "f", specialization := "cardio", location := "ny",
    hospitalName := "H", doctorid := "D1", status := "pending" }

/-- A concrete approved doctor record, for witnesses. -/
def approvedDoctor : Doctor :=
  { name := "Bob", email := "b@x.com", passwordHash := "qh", phone := "2",
    gender := "m", specialization := "derm", location := "la",
    hospitalName := "G", doctorid := "D2", status := "approved" }

/-- C3 witness: a concrete pending doctor cannot log in even when the
password comparison always succeeds, and the session stays empty. -/
theorem doctorLogin_unapproved_never_session_witness :
    (doctorLogin (fun _ _ => true) [pendingDoctor] {} "a@x.com" "pw").status = 403 ∧
    (doctorLogin (fun _ _ => true) [pendingDoctor] {} "a@x.com" "pw").session = {} :=
  have h :=
    doctorLogin_unapproved_never_session.1 (fun _ _ => true) [pendingDoctor] {}
      "a@x.com" "pw" pendingDoctor (by decide) (by decide)
  ⟨h.1, h.2.2.1⟩

/-- C4: registering with an email already present yields the 400
conflict body "Doctor with this email already exists" and leaves the
collection unchanged; registering with a fresh email appends exactly one
record holding the hashed password, the generated identifier and status
"pending", and answers 201 carrying the generated identifier. -/
theorem doctorRegister_conflict_or_create :
    ∀ (hash : String → String) (generatedCode : String) (db : List Doctor)
      (body : RegisterBody),
      ((∃ d ∈ db, d.email = body.email) →
        (doctorRegister hash generatedCode db body).status = 400 ∧
        (doctorRegister hash generatedCode db body).success = false ∧
        (doctorRegister hash generatedCode db body).message =
          "Doctor with this email already exists" ∧
        (doctorRegister hash generatedCode db body).db = db) ∧
      ((∀ d ∈ db, d.email ≠ body.email) →
        (doctorRegister hash generatedCode db body).status = 201 ∧
        (doctorRegister hash generatedCode db body).success = true ∧
        (doctorRegister hash generatedCode db body).doctorId = some generatedCode ∧
        ∃ nd : Doctor,
          (doctorRegister hash generatedCode db body).db = db ++ [nd] ∧
          nd.email = body.email ∧
          nd.passwordHash = hash body.password ∧
          nd.doctorid = generatedCode ∧
          nd.status = "pending") := by
  intro hash generatedCode db body
  constructor
  · intro hex
    have hsome : (db.find? (fun d => d.email == body.email)).isSome := by
      rw [List.find?_isSome]
      simpa using hex
    obtain ⟨d0, hd0⟩ := Option.isSome_iff_exists.mp hsome
    unfold doctorRegister
    rw [hd0]
    exact ⟨rfl, rfl, rfl, rfl⟩
  · intro hall
    have hnone : db.find? (fun d => d.email == body.email) = none := by
      rw [List.find?_eq_none]
      intro x hx
      simpa using hall x hx
    unfold doctorRegister
    rw [hnone]
    exact ⟨rfl, rfl, rfl, _, rfl, rfl, rfl, rfl, rfl⟩

/-- C4 witness: a duplicate registration against a one-doctor collection
conflicts without writing, and a fresh registration appends the pending
record. -/
theorem doctorRegister_conflict_or_create_witness :
    ((doctorRegister (fun s => s ++ "#") "D9" [pendingDoctor]
        { name := "Alice", email := "a@x.com", password := "pw", phone := "1",
          gender := "f", specialization := "Cardio", location := "NY",
          hospitalName := none }).status = 400 ∧
     (doctorRegister (fun s => s ++ "#") "D9" [pendingDoctor]
        { name := "Alice", email := "a@x.com", password := "pw", phone := "1",
          gender := "f", specialization := "Cardio", location := "NY",
          hospitalName := none }).db = [pendingDoctor]) ∧
    (doctorRegister (fun s => s ++ "#") "D9" [pendingDoctor]
        { name := "Carol", email := "c@x.com", password := "pw", phone := "3",
          gender := "f", specialization := "Cardio", location := "NY",
          hospitalName := none }).status = 201 :=
  have h1 :=
    (doctorRegister_conflict_or_create (fun s => s ++ "#") "D9" [pendingDoctor]
      { name := "Alice", email := "a@x.com", password := "pw", phone := "1",
        gender := "f", specialization := "Cardio", location := "NY",
        hospitalName := none }).1 ⟨pendingDoctor, by decide, by decide⟩
  have h2 :=
    (doctorRegister_conflict_or_create (fun s => s ++ "#") "D9" [pendingDoctor]
      { name := "Carol", email := "c@x.com", password := "pw", phone := "3",
        gender := "f", specialization := "Cardio", location := "NY",
        hospitalName := none }).2 (by decide)
  ⟨⟨h1.1, h1.2.2.2⟩, h2.1⟩

/-- A concrete pending appointment owned by `approvedDoctor`, for
witnesses. -/
def pendingAppointment : Appointment :=
  { id := "A1", doctorid := "D2", patientEmail := "p@x.com",
    status := "pending", timeSlot := "", appointmentDate := "",
    confirmationMessage := "", createdAt := 5 }

/-- A concrete already-confirmed appointment owned by `approvedDoctor`,
for witnesses. -/
def confirmedAppointment : Appointment :=
  { id := "A2", doctorid := "D2", patientEmail := "q@x.com",
    status := "confirmed", timeSlot := "9:00",
    appointmentDate := "2024-12-01",
    confirmationMessage := "see you", createdAt := 7 }

/-- C1: confirming an appointment that exists and is owned by the
session doctor answers success, and the store afterwards holds the
appointment with status "confirmed" and the supplied confirmation
message (or the derived default when none was supplied); the HTTP status,
success flag, message, returned appointment and the stored state are the
same under every notification outcome (sent, failed, or thrown), so the
notification never rolls back the transition nor changes the response. -/
theorem confirmAppointment_success_email_independent :
    ∀ (formatDate : String → String) (db : List Appointment)
      (doctorId appointmentId timeSlot appointmentDate : String)
      (confirmationMessage : Option String) (appt : Appointment)
      (e1 e2 : EmailOutcome),
      db.find? (fun a => a.id == appointmentId && a.doctorid == doctorId) =
        some appt →
      (confirmAppointment formatDate db doctorId appointmentId timeSlot
          appointmentDate confirmationMessage e1).status = 200 ∧
      (confirmAppointment formatDate db doctorId appointmentId timeSlot
          appointmentDate confirmationMessage e1).success = true ∧
      (∃ u ∈ (confirmAppointment formatDate db doctorId appointmentId timeSlot
          appointmentDate confirmationMessage e1).db,
        u.id = appt.id ∧ u.status = "confirmed" ∧
        u.confirmationMessage =
          jsOrElse confirmationMessage
            (defaultConfirmationMessage formatDate timeSlot appointmentDate)) ∧
      (confirmAppointment formatDate db doctorId appointmentId timeSlot
          appointmentDate confirmationMessage e1).status =
        (confirmAppointment formatDate db doctorId appointmentId timeSlot
          appointmentDate confirmationMessage e2).status ∧
      (confirmAppointment formatDate db doctorId appointmentId timeSlot
          appointmentDate confirmationMessage e1).success =
        (confirmAppointment formatDate db doctorId appointmentId timeSlot
          appointmentDate confirmationMessage e2).success ∧
      (confirmAppointment formatDate db doctorId appointmentId timeSlot
          appointmentDate confirmationMessage e1).message =
        (confirmAppointment formatDate db doctorId appointmentId timeSlot
          appointmentDate confirmationMessage e2).message ∧
      (confirmAppointment formatDate db doctorId appointmentId timeSlot
          appointmentDate confirmationMessage e1).appointment =
        (confirmAppointment formatDate db doctorId appointmentId timeSlot
          appointmentDate confirmationMessage e2).appointment ∧
      (confirmAppointment formatDate db doctorId appointmentId timeSlot
          appointmentDate confirmationMessage e1).db =
        (confirmAppointment formatDate db doctorId appointmentId timeSlot
          appointmentDate confirmationMessage e2).db := by
  intro formatDate db doctorId appointmentId timeSlot appointmentDate
    confirmationMessage appt e1 e2 hfind
  have hmem : appt ∈ db := List.mem_of_find?_eq_some hfind
  unfold confirmAppointment
  rw [hfind]
  refine ⟨rfl, rfl, ?_, rfl, rfl, rfl, rfl, rfl⟩
  exact ⟨{ appt with
            status := "confirmed", timeSlot := timeSlot,
            appointmentDate := appointmentDate,
            confirmationMessage :=
              jsOrElse confirmationMessage
                (defaultConfirmationMessage formatDate timeSlot
                  appointmentDate) },
         mem_saveAppointmentById db _ ⟨appt, hmem, rfl⟩, rfl, rfl, rfl⟩

/-- C1 witness: a concrete owned appointment is confirmed with the same
persisted state and response under a sent and a thrown notification. -/
theorem confirmAppointment_success_email_independent_witness :
    (confirmAppointment (fun s => s) [pendingAppointment] "D2" "A1" "10:00"
        "2025-01-01" none .sent).status = 200 ∧
    (confirmAppointment (fun s => s) [pendingAppointment] "D2" "A1" "10:00"
        "2025-01-01" none .sent).db =
      (confirmAppointment (fun s => s) [pendingAppointment] "D2" "A1" "10:00"
        "2025-01-01" none (.thrown "boom")).db :=
  have h :=
    confirmAppointment_success_email_independent (fun s => s)
      [pendingAppointment] "D2" "A1" "10:00" "2025-01-01" none
      pendingAppointment .sent (.thrown "boom") (by decide)
  ⟨h.1, h.2.2.2.2.2.2.2⟩

/-- C2: when no stored appointment has both the requested id and the
session doctor identifier — the id is absent entirely or the appointment
belongs to another doctor — the confirm handler answers exactly the one
404 "Appointment not found" body and performs no write: the store,
including the targeted appointment record, is returned unchanged. -/
theorem confirmAppointment_notFound_no_write :
    ∀ (formatDate : String → String) (db : List Appointment)
      (doctorId appointmentId timeSlot appointmentDate : String)
      (confirmationMessage : Option String) (email : EmailOutcome),
      (∀ a ∈ db, a.id = appointmentId → a.doctorid ≠ doctorId) →
      confirmAppointment formatDate db doctorId appointmentId timeSlot
        appointmentDate confirmationMessage email =
        { status := 404, success := false, message := "Appointment not found",
          appointment := none, emailSent := none, db := db, log := [] } := by
  intro formatDate db doctorId appointmentId timeSlot appointmentDate
    confirmationMessage email h
  have hnone :
      db.find? (fun a => a.id == appointmentId && a.doctorid == doctorId) =
        none := by
    rw [List.find?_eq_none]
    intro x hx
    simp only [Bool.and_eq_true, beq_iff_eq, not_and]
    exact h x hx
  unfold confirmAppointment
  rw [hnone]

/-- C2 witness: confirming a non-owned concrete appointment (and equally
a missing id) yields the 404 body and the unchanged store. -/
theorem confirmAppointment_notFound_no_write_witness :
    confirmAppointment (fun s => s) [pendingAppointment] "D1" "A1" "10:00"
        "2025-01-01" none .sent =
      { status := 404, success := false, message := "Appointment not found",
        appointment := none, emailSent := none, db := [pendingAppointment],
        log := [] } :=
  confirmAppointment_notFound_no_write (fun s => s) [pendingAppointment]
    "D1" "A1" "10:00" "2025-01-01" none .sent (by decide)

/-- C9: the confirm handler has no precondition on the current status:
an owned appointment already in status "confirmed" is confirmed again
with success, and the stored record's time slot, date and confirmation
message are overwritten with the newly supplied values (or the derived
default). -/
theorem confirmAppointment_reconfirm_overwrites :
    ∀ (formatDate : String → String) (db : List Appointment)
      (doctorId appointmentId timeSlot appointmentDate : String)
      (confirmationMessage : Option String) (email : EmailOutcome)
      (appt : Appointment),
      db.find? (fun a => a.id == appointmentId && a.doctorid == doctorId) =
        some appt →
      appt.status = "confirmed" →
      (confirmAppointment formatDate db doctorId appointmentId timeSlot
          appointmentDate confirmationMessage email).status = 200 ∧
      (confirmAppointment formatDate db doctorId appointmentId timeSlot
          appointmentDate confirmationMessage email).success = true ∧
      (∃ u ∈ (confirmAppointment formatDate db doctorId appointmentId timeSlot
          appointmentDate confirmationMessage email).db,
        u.id = appt.id ∧ u.status = "confirmed" ∧ u.timeSlot = timeSlot ∧
        u.appointmentDate = appointmentDate ∧
        u.confirmationMessage =
          jsOrElse confirmationMessage
            (defaultConfirmationMessage formatDate timeSlot
              appointmentDate)) := by
  intro formatDate db doctorId appointmentId timeSlot appointmentDate
    confirmationMessage email appt hfind _
  have hmem : appt ∈ db := List.mem_of_find?_eq_some hfind
  unfold confirmAppointment
  rw [hfind]
  refine ⟨rfl, rfl, ?_⟩
  exact ⟨{ appt with
            status := "confirmed", timeSlot := timeSlot,
            appointmentDate := appointmentDate,
            confirmationMessage :=
              jsOrElse confirmationMessage
                (defaultConfirmationMessage formatDate timeSlot
                  appointmentDate) },
         mem_saveAppointmentById db _ ⟨appt, hmem, rfl⟩, rfl, rfl, rfl, rfl, rfl⟩

/-- C9 witness: a second confirmation of a concrete already-confirmed
appointment succeeds and overwrites the slot, date and message. -/
theorem confirmAppointment_reconfirm_overwrites_witness :
    (confirmAppointment (fun s => s) [confirmedAppointment] "D2" "A2" "11:00"
        "2025-02-02" (some "new message") .sent).status = 200 :=
  (confirmAppointment_reconfirm_overwrites (fun s => s) [confirmedAppointment]
    "D2" "A2" "11:00" "2025-02-02" (some "new message") .sent
    confirmedAppointment (by decide) (by decide)).1

/-- C8: the appointment listing returns a permutation of exactly the
stored appointments whose doctor identifier equals the session doctor
identifier, in descending creation-time order; every listed appointment
belongs to that doctor and every stored appointment of that doctor is
listed. -/
theorem getDoctorAppointments_owned_sorted :
    ∀ (db : List Appointment) (doctorId : String),
      (getDoctorAppointments db doctorId).Perm
        (db.filter (fun a => a.doctorid == doctorId)) ∧
      (getDoctorAppointments db doctorId).Pairwise
        (fun a b => b.createdAt ≤ a.createdAt) ∧
      (∀ a ∈ getDoctorAppointments db doctorId, a.doctorid = doctorId) ∧
      (∀ a ∈ db, a.doctorid = doctorId →
        a ∈ getDoctorAppointments db doctorId) := by
  intro db doctorId
  have hperm : (getDoctorAppointments db doctorId).Perm
      (db.filter (fun a => a.doctorid == doctorId)) :=
    List.mergeSort_perm _ _
  have htrans : ∀ a b c : Appointment, byCreatedAtDesc a b = true →
      byCreatedAtDesc b c = true → byCreatedAtDesc a c = true := by
    intro a b c h1 h2
    simp only [byCreatedAtDesc, decide_eq_true_eq] at h1 h2 ⊢
    omega
  have htotal : ∀ a b : Appointment,
      (byCreatedAtDesc a b || byCreatedAtDesc b a) = true := by
    intro a b
    simp only [byCreatedAtDesc, Bool.or_eq_true, decide_eq_true_eq]
    omega
  refine ⟨hperm, ?_, ?_, ?_⟩
  · have h := List.sorted_mergeSort htrans htotal
      (db.filter (fun a => a.doctorid == doctorId))
    exact h.imp (fun hab => by simpa [byCreatedAtDesc] using hab)
  · intro a ha
    have hf : a ∈ db.filter (fun a => a.doctorid == doctorId) :=
      hperm.mem_iff.mp ha
    simpa using (List.mem_filter.mp hf).2
  · intro a ha hd
    exact hperm.mem_iff.mpr (List.mem_filter.mpr ⟨ha, by simpa using hd⟩)

/-- C8 witness: in a concrete two-appointment store both owned by doctor
D2, the listing for D2 contains the older appointment as well. -/
theorem getDoctorAppointments_owned_sorted_witness :
    pendingAppointment ∈
      getDoctorAppointments [pendingAppointment, confirmedAppointment] "D2" :=
  (getDoctorAppointments_owned_sorted [pendingAppointment, confirmedAppointment]
    "D2").2.2.2 pendingAppointment (by decide) (by decide)

/-- C6: a profile update by a doctor session sets exactly the five
fields name, phone, specialization, location and hospital name of the
matched doctor record to the submitted values, leaves email, password
hash, doctor identifier, approval status, gender and profile picture of
that record unchanged, touches no other record of the collection, and
returns the updated record through the hash-free view (the
`DoctorView` structure has no password hash field, mirroring
`select("-passwordHash")`). -/
theorem doctorProfileUpdate_only_five_fields :
    ∀ (db : List Doctor) (doctorId : String) (body : UpdateBody) (d : Doctor),
      db.find? (fun x => x.doctorid == doctorId) = some d →
      (doctorProfileUpdate db doctorId body).success = true ∧
      (doctorProfileUpdate db doctorId body).doctor =
        some (applyProfileUpdate body d).view ∧
      (applyProfileUpdate body d).name = body.name ∧
      (applyProfileUpdate body d).phone = body.phone ∧
      (applyProfileUpdate body d).specialization = body.specialization ∧
      (applyProfileUpdate body d).location = body.location ∧
      (applyProfileUpdate body d).hospitalName = body.hospitalName ∧
      (applyProfileUpdate body d).email = d.email ∧
      (applyProfileUpdate body d).passwordHash = d.passwordHash ∧
      (applyProfileUpdate body d).doctorid = d.doctorid ∧
      (applyProfileUpdate body d).status = d.status ∧
      (applyProfileUpdate body d).gender = d.gender ∧
      (applyProfileUpdate body d).profilePicture = d.profilePicture ∧
      (∀ x ∈ (doctorProfileUpdate db doctorId body).db,
        x ∈ db ∨ x = applyProfileUpdate body d) := by
  intro db doctorId body d hfind
  unfold doctorProfileUpdate
  rw [hfind]
  exact ⟨rfl, rfl, rfl, rfl, rfl, rfl, rfl, rfl, rfl, rfl, rfl, rfl, rfl,
    mem_updateFirstDoctor db doctorId (applyProfileUpdate body d)⟩

/-- C6 witness: a concrete update of the approved doctor keeps the
password hash of the stored record and returns the hash-free view. -/
theorem doctorProfileUpdate_only_five_fields_witness :
    (doctorProfileUpdate [approvedDoctor] "D2"
        { name := "Bobby", phone := "22", specialization := "Derm",
          location := "LA", hospitalName := "G2" }).success = true ∧
    (applyProfileUpdate
        { name := "Bobby", phone := "22", specialization := "Derm",
          location := "LA", hospitalName := "G2" }
        approvedDoctor).passwordHash = approvedDoctor.passwordHash :=
  have h :=
    doctorProfileUpdate_only_five_fields [approvedDoctor] "D2"
      { name := "Bobby", phone := "22", specialization := "Derm",
        location := "LA", hospitalName := "G2" } approvedDoctor (by decide)
  ⟨h.1, h.2.2.2.2.2.2.2.2.1⟩

/-- C10: registration persists specialization and location lowercased,
while the profile update document stores the submitted specialization
and location verbatim; a concrete update with specialization "Derm"
persists "Derm", which is not lowercase, so the lowercase normalization
of registration is not an invariant preserved by every operation on the
doctor record. -/
theorem register_lowercases_update_preserves_case :
    (∀ (hash : String → String) (generatedCode : String) (db : List Doctor)
        (body : RegisterBody),
      (∀ d ∈ db, d.email ≠ body.email) →
      ∃ nd : Doctor,
        (doctorRegister hash generatedCode db body).db = db ++ [nd] ∧
        nd.specialization = jsToLowerCase body.specialization ∧
        nd.location = jsToLowerCase body.location) ∧
    (∀ (body : UpdateBody) (d : Doctor),
      (applyProfileUpdate body d).specialization = body.specialization ∧
      (applyProfileUpdate body d).location = body.location) ∧
    ((doctorProfileUpdate [approvedDoctor] "D2"
        { name := "Bob", phone := "2", specialization := "Derm",
          location := "LA", hospitalName := "G" }).doctor.map
        (fun v => v.specialization) = some "Derm" ∧
     "Derm" ≠ jsToLowerCase "Derm") := by
  refine ⟨?_, ?_, by decide, by decide⟩
  · intro hash generatedCode db body hall
    have hnone : db.find? (fun d => d.email == body.email) = none := by
      rw [List.find?_eq_none]
      intro x hx
      simpa using hall x hx
    unfold doctorRegister
    rw [hnone]
    exact ⟨_, rfl, rfl, rfl⟩
  · intro body d
    exact ⟨rfl, rfl⟩

/-- C10 witness: registering with specialization "Cardio" and location
"NY" against an empty collection stores the lowercased values. -/
theorem register_lowercases_update_preserves_case_witness :
    ∃ nd : Doctor,
      (doctorRegister (fun s => s) "D9" []
          { name := "Alice", email := "a@x.com", password := "pw",
            phone := "1", gender := "f", specialization := "Cardio",
            location := "NY", hospitalName := none }).db = [] ++ [nd] ∧
      nd.specialization = jsToLowerCase "Cardio" ∧
      nd.location = jsToLowerCase "NY" :=
  register_lowercases_update_preserves_case.1 (fun s => s) "D9" []
    { name := "Alice", email := "a@x.com", password := "pw", phone := "1",
      gender := "f", specialization := "Cardio", location := "NY",
      hospitalName := none } (by simp)

/-- C5 counterexample: with no session at all, the JSON API routes
`GET /doctor/appointments` and the confirm route answer a redirect to
`/doctorLogin` produced by the shared `isDoctorLoggedIn` middleware —
not a JSON response with a 401/403-equivalent failure code. -/
theorem protectedApi_redirects_counterexample :
    getAppointmentsRoute none [] =
      AppointmentsOutcome.redirect "/doctorLogin" ∧
    confirmRoute (fun s => s) none [] "A1" "10:00" "2025-01-01" none .sent =
      ConfirmOutcome.redirect "/doctorLogin" :=
  ⟨rfl, rfl⟩

/-- C5 amended: every request to a route guarded by `isDoctorLoggedIn`
with no session or no truthy doctor identifier in the session is
redirected to the login entry point `/doctorLogin`; page routes and JSON
API routes alike receive this redirect, the JSON APIs do not receive a
401/403 failure code. -/
theorem gate_redirects_all_protected_routes :
    (∀ sess : Option Session,
      (∀ s, sess = some s → truthyStr s.doctorId = false) →
      isDoctorLoggedIn sess = .redirect "/doctorLogin") ∧
    (∀ (sess : Option Session) (db : List Appointment),
      isDoctorLoggedIn sess = .redirect "/doctorLogin" →
      getAppointmentsRoute sess db = .redirect "/doctorLogin") ∧
    (∀ (formatDate : String → String) (sess : Option Session)
        (db : List Appointment)
        (appointmentId timeSlot appointmentDate : String)
        (cm : Option String) (email : EmailOutcome),
      isDoctorLoggedIn sess = .redirect "/doctorLogin" →
      confirmRoute formatDate sess db appointmentId timeSlot appointmentDate
        cm email = .redirect "/doctorLogin") := by
  refine ⟨?_, ?_, ?_⟩
  · intro sess h
    cases sess with
    | none => rfl
    | some s =>
      have h2 := h s rfl
      cases hd : s.doctorId with
      | none => simp [isDoctorLoggedIn, hd]
      | some d =>
        rw [hd] at h2
        simp only [truthyStr, decide_eq_false_iff_not, not_not] at h2
        simp [isDoctorLoggedIn, hd, h2]
  · intro sess db hg
    unfold getAppointmentsRoute
    rw [hg]
  · intro formatDate sess db appointmentId timeSlot appointmentDate cm email hg
    unfold confirmRoute
    rw [hg]

/-- C5 amended witness: with no session, the middleware redirects and the
appointments API route is redirected rather than answered with JSON. -/
theorem gate_redirects_all_protected_routes_witness :
    isDoctorLoggedIn none = .redirect "/doctorLogin" ∧
    getAppointmentsRoute none [] =
      AppointmentsOutcome.redirect "/doctorLogin" :=
  ⟨gate_redirects_all_protected_routes.1 none (fun _ hs => nomatch hs),
   gate_redirects_all_protected_routes.2.1 none []
     (gate_redirects_all_protected_routes.1 none (fun _ hs => nomatch hs))⟩
